import Mathlib

/-!
Shallow embedding of the sidecar process supervisor in
`src/DAS Frontend/src-tauri/src/main.rs` (Tauri frontend of the educore
repository), covering: backend path resolution and launch (`start_backend`),
the TCP readiness probe (`wait_for_backend_ready`), process-tree termination
(`terminate_backend_process`), the guarded process slot (`BackendProcess`)
with its take-and-kill termination step, and the two shutdown handlers
(window-close and `RunEvent::Exit`).

OS interactions (filesystem existence checks, log-file creation, process
spawn, TCP connect/read/write, command execution) are modelled by explicit
environment oracles; the control flow acting on their outcomes is transcribed
from the source.
-/

namespace Educore

/-- A spawned child process handle (`std::process::Child`); the supervisor
only ever reads its pid (`child.id()`). -/
structure Child where
  id : Nat
deriving DecidableEq, Repr

/-! ### Readiness probe: `wait_for_backend_ready` (main.rs lines 118-162) -/

/-- Outcome of the OS/network interactions of one polling attempt of
`wait_for_backend_ready`: the TCP connect may fail (`connectRefused`),
`set_read_timeout` may fail (`setTimeoutFailed`), `write_all` may fail
(`writeFailed`), `stream.read` may fail (`readErr`) or return data
(`readOk`, with `data.length` the number of bytes read; zero-length data
models `Ok(0)`). -/
inductive AttemptOutcome
  | connectRefused
  | setTimeoutFailed
  | writeFailed
  | readErr
  | readOk (data : String)
deriving DecidableEq, Repr

/-- Whether `pat` is a prefix of `s` (character lists). -/
def listStartsWith : List Char → List Char → Bool
  | _, [] => true
  | [], _ :: _ => false
  | c :: cs, p :: ps => c == p && listStartsWith cs ps

/-- Whether `pat` occurs as a contiguous run inside `s` (character lists). -/
def listHasSub : List Char → List Char → Bool
  | [], pat => pat.isEmpty
  | c :: cs, pat => listStartsWith (c :: cs) pat || listHasSub cs pat

/-- Substring containment, modelling Rust `str::contains` on the decoded
response text. -/
def strContains (s pat : String) : Bool :=
  listHasSub s.toList pat.toList

/-- Whether one polling attempt of `wait_for_backend_ready` declares the
backend ready (main.rs lines 123-146): only a read of more than zero bytes
whose text contains `"HTTP/1.1 200"` or `"\"status\""` does; every other
outcome falls through to the sleep. -/
def attemptReady : AttemptOutcome → Bool
  | AttemptOutcome.readOk data =>
      0 < data.length &&
        (strContains data "HTTP/1.1 200" || strContains data "\"status\"")
  | _ => false

/-- Result of the probe: the returned boolean, the number of connection
attempts performed, and the total milliseconds slept
(each non-ready attempt sleeps `delay_ms`; a ready attempt returns
immediately without sleeping). -/
structure ProbeResult where
  ready : Bool
  attempts : Nat
  sleptMs : Nat
deriving DecidableEq, Repr

/-- The `for _attempt in 0..max_attempts` loop of `wait_for_backend_ready`:
`idx` is the index of the next attempt, the recursion argument the number of
attempts remaining. A ready attempt returns `true` at once (short-circuiting
the rest); any other attempt sleeps `delay_ms` and continues; an exhausted
loop returns `false`. -/
def probeLoop (env : Nat → AttemptOutcome) (delay_ms : Nat) (idx : Nat) :
    Nat → ProbeResult
  | 0 => { ready := false, attempts := idx, sleptMs := idx * delay_ms }
  | rem + 1 =>
      if attemptReady (env idx) then
        { ready := true, attempts := idx + 1, sleptMs := idx * delay_ms }
      else
        probeLoop env delay_ms (idx + 1) rem

/-- `wait_for_backend_ready(max_attempts, delay_ms)` (main.rs lines 118-162),
with the behaviour of the OS on attempt `i` given by the oracle `env i`.
It always returns a `ProbeResult` (a boolean plus instrumentation), never an
error. -/
def wait_for_backend_ready (env : Nat → AttemptOutcome)
    (max_attempts : Nat) (delay_ms : Nat) : ProbeResult :=
  probeLoop env delay_ms 0 max_attempts

/-! ### Process-tree termination: `terminate_backend_process`
(main.rs lines 164-185) -/

/-- An external command invocation (`std::process::Command`): program name
and argument list. -/
structure Cmd where
  program : String
  args : List String
deriving DecidableEq, Repr

/-- Outcome of running an external command via `.output()`: the command ran
and exited with a code, or it could not be launched at all. -/
inductive CmdOutcome
  | ran (exitCode : Nat)
  | launchFailed
deriving DecidableEq, Repr

/-- `terminate_backend_process(pid)` (main.rs lines 164-185): issues a single
`taskkill /PID <pid> /T /F` invocation (force flag `/F`, tree flag `/T`) and
discards its result (`let _ = ... .output()`), returning unit whatever
`outcome` the command had. The returned list records the commands issued. -/
def terminate_backend_process (pid : Nat) (_outcome : CmdOutcome) :
    Unit × List Cmd :=
  ((), [{ program := "taskkill",
          args := ["/PID", toString pid, "/T", "/F"] }])

/-! ### The guarded process slot and the take-and-kill termination step
(`BackendProcess(Mutex<Option<Child>>)`, main.rs line 116, and the two
shutdown handlers, lines 279-300 and 307-323) -/

/-- State of the supervisor visible to the shutdown handlers: the managed
`Mutex<Option<Child>>` slot, plus the list of pids for which a kill was
issued (instrumentation of the `terminate_backend_process` call sites). -/
structure SlotState where
  slot : Option Child
  kills : List Nat
deriving DecidableEq, Repr

/-- Body of the window-close handler's worker thread (main.rs lines 286-298):
lock the slot, `take()` the child if present (leaving `None`), and call
`terminate_backend_process(pid)` on the taken child. -/
def windowCloseTerminate (s : SlotState) : SlotState :=
  match s.slot with
  | some child => { slot := none, kills := s.kills ++ [child.id] }
  | none => s

/-- Body of the `RunEvent::Exit` handler (main.rs lines 309-321): lock the
slot, `take()` the child if present (leaving `None`), and call
`terminate_backend_process(pid)` on the taken child. -/
def exitTerminate (s : SlotState) : SlotState :=
  match s.slot with
  | some child => { slot := none, kills := s.kills ++ [child.id] }
  | none => s

/-! ### Synchronisation-event trace of one termination run
(main.rs lines 287-297 / 310-320) -/

/-- Synchronisation-relevant events of one execution of a shutdown handler's
take-and-kill body: `lock` when `backend.0.lock()` succeeds, `takeLive` /
`takeEmpty` for `process.take()` on a full / empty slot, `kill pid` for the
call to `terminate_backend_process(pid)`, and `unlock` when the `MutexGuard`
is dropped. -/
inductive SyncEv
  | lock
  | takeLive
  | takeEmpty
  | kill (pid : Nat)
  | unlock
deriving DecidableEq, Repr

/-- The event trace of one execution of the take-and-kill body against a slot
holding `slot`. In the source the guard `process` is in scope for the whole
`if let Ok(mut process) = backend.0.lock()` block, so it is dropped
(`unlock`) only after `terminate_backend_process(pid)` returns. -/
def terminateTrace (slot : Option Child) : List SyncEv :=
  match slot with
  | some child =>
      [SyncEv.lock, SyncEv.takeLive, SyncEv.kill child.id, SyncEv.unlock]
  | none => [SyncEv.lock, SyncEv.takeEmpty, SyncEv.unlock]

/-- Whether `ev` is a `kill` event. -/
def isKillEv : SyncEv → Bool
  | SyncEv.kill _ => true
  | _ => false

/-- Whether `ev` is the `unlock` event. -/
def isUnlockEv : SyncEv → Bool
  | SyncEv.unlock => true
  | _ => false

/-- Whether `ev` is the `takeLive` event. -/
def isTakeLiveEv : SyncEv → Bool
  | SyncEv.takeLive => true
  | _ => false

/-- Index of the first `unlock` in a trace (length of the trace if none). -/
def unlockIdx (tr : List SyncEv) : Nat :=
  tr.findIdx isUnlockEv

/-- Index of the first `kill` in a trace (length of the trace if none). -/
def killIdx (tr : List SyncEv) : Nat :=
  tr.findIdx isKillEv

/-- Index of the first `takeLive` in a trace (length of the trace if none). -/
def takeLiveIdx (tr : List SyncEv) : Nat :=
  tr.findIdx isTakeLiveEv

/-- The ordering asserted by the specification: in a trace that performs a
kill, the mutual-exclusion guard is released strictly before the kill. -/
def releasedBeforeKill (tr : List SyncEv) : Bool :=
  tr.any isKillEv && decide (unlockIdx tr < killIdx tr)

/-! ### Dispatch of the two shutdown triggers (main.rs lines 279-300 and
307-323) -/

/-- How an event handler dispatches the take-and-kill body: whether it runs
on a newly spawned worker thread (`std::thread::spawn`), whether the handler
joins that worker, and which state transformation it dispatches. -/
structure DispatchDesc where
  spawnsWorker : Bool
  joinsWorker : Bool
  action : SlotState → SlotState

/-- Dispatch of the window-close handler (main.rs lines 279-300): on
`WindowEvent::CloseRequested` it calls `std::thread::spawn` with the
take-and-kill closure and discards the returned `JoinHandle` (no join). -/
def windowCloseDispatch : DispatchDesc :=
  { spawnsWorker := true
    joinsWorker := false
    action := windowCloseTerminate }

/-- Dispatch of the application-exit handler (main.rs lines 307-323): on
`RunEvent::Exit` it runs the take-and-kill body inline in the `run` callback,
on the thread delivering the event; no thread is spawned. -/
def exitDispatch : DispatchDesc :=
  { spawnsWorker := false
    joinsWorker := false
    action := exitTerminate }

/-! ### Backend launch: `start_backend` (main.rs lines 187-240) -/

/-- The kind of a `std::io::Error` as used by `start_backend`
(`ErrorKind::NotFound` for the two explicitly constructed errors; `osError`
for errors propagated by `?` from `File::create`, `try_clone` or `spawn`). -/
inductive ErrKind
  | notFound
  | osError
deriving DecidableEq, Repr

/-- A `std::io::Error`: kind plus message. -/
structure IoErr where
  kind : ErrKind
  msg : String
deriving DecidableEq, Repr

/-- Filesystem/OS side effects of `start_backend`, in program order:
`createLog` for `File::create(backend.log)` (creating, and truncating any
previous contents), `checkPrimary` / `checkSidecar` for the two
`.exists()` tests, `spawn path` for `Command::new(&backend_exe).spawn()`. -/
inductive Ev
  | createLog
  | checkPrimary
  | checkSidecar
  | spawn (path : String)
deriving DecidableEq, Repr

/-- Oracle for the OS interactions of one `start_backend` call: whether
`current_exe`/`parent` yields the exe directory, whether log creation and
handle cloning succeed, which backend filenames exist, whether the spawn
succeeds (and with which pid), and the per-attempt behaviour seen by the
readiness probe. -/
structure LaunchEnv where
  exeDirOk : Bool
  logCreateOk : Bool
  logCloneOk : Bool
  primaryExists : Bool
  sidecarExists : Bool
  spawnOk : Bool
  childPid : Nat
  probeEnv : Nat → AttemptOutcome

/-- Result of a `start_backend` call: the returned `Result<Child, io::Error>`,
the ordered trace of OS side effects, and the probe's verdict when the probe
ran (`none` when control never reached it). -/
structure StartOutcome where
  result : Except IoErr Child
  events : List Ev
  probeReady : Option Bool

/-- Rust's `{:?}` debug formatting of a path, as interpolated into the
NotFound error message. -/
def pathDebug (p : String) : String :=
  "\"" ++ p ++ "\""

/-- `Path::join` of a directory and a file name. -/
def joinPath (dir name : String) : String :=
  dir ++ "/" ++ name

/-- The primary backend filename tried first (main.rs line 195). -/
def primaryName : String := "school-management-backend.exe"

/-- The platform-qualified sidecar filename tried second
(main.rs line 212). -/
def sidecarName : String :=
  "school-management-backend-x86_64-pc-windows-msvc.exe"

/-- The executable-resolution step of `start_backend`
(main.rs lines 208-223): return the primary path if that file exists, else
the sidecar path if that file exists, else a NotFound error whose message
carries the attempted primary path. -/
def resolveBackendExe (dir : String) (primaryExists sidecarExists : Bool) :
    Except IoErr String :=
  let backend_path := joinPath dir primaryName
  if primaryExists then
    Except.ok backend_path
  else
    let sidecar_path := joinPath dir sidecarName
    if sidecarExists then
      Except.ok sidecar_path
    else
      Except.error
        { kind := ErrKind.notFound
          msg := "Backend exe not found at " ++ pathDebug backend_path }

/-- `start_backend()` (main.rs lines 187-240): resolve the exe directory,
create (truncating) `backend.log` and clone its handle, resolve the backend
executable (primary name, then sidecar name, else NotFound), spawn it with
stdout/stderr redirected to the log, run
`wait_for_backend_ready(100, 200)` ignoring its verdict except for logging,
and return the child handle. Every `?`-propagated OS failure is modelled by
the corresponding `LaunchEnv` flag. -/
def start_backend (dir : String) (env : LaunchEnv) : StartOutcome :=
  if !env.exeDirOk then
    { result := Except.error
        { kind := ErrKind.notFound, msg := "Cannot find exe directory" }
      events := []
      probeReady := none }
  else if !env.logCreateOk then
    { result := Except.error
        { kind := ErrKind.osError, msg := "failed to create backend.log" }
      events := []
      probeReady := none }
  else if !env.logCloneOk then
    { result := Except.error
        { kind := ErrKind.osError, msg := "failed to clone log handle" }
      events := [Ev.createLog]
      probeReady := none }
  else
    let checkEvs :=
      if env.primaryExists then [Ev.checkPrimary]
      else [Ev.checkPrimary, Ev.checkSidecar]
    match resolveBackendExe dir env.primaryExists env.sidecarExists with
    | Except.error e =>
        { result := Except.error e
          events := Ev.createLog :: checkEvs
          probeReady := none }
    | Except.ok backend_exe =>
        if !env.spawnOk then
          { result := Except.error
              { kind := ErrKind.osError, msg := "spawn failed" }
            events := Ev.createLog :: checkEvs
            probeReady := none }
        else
          let ready :=
            (wait_for_backend_ready env.probeEnv 100 200).ready
          { result := Except.ok { id := env.childPid }
            events := Ev.createLog :: checkEvs ++ [Ev.spawn backend_exe]
            probeReady := some ready }

/-! ### Application setup (main.rs lines 249-264) -/

/-- The backend-launch part of the Tauri `setup` closure
(main.rs lines 251-264): on `Ok(child)` manage a slot holding the child; on
`Err(e)` log in debug builds only and manage an empty slot. The closure then
continues and returns `Ok(())` in both cases — no error is surfaced. The
first component is the managed `Mutex<Option<Child>>` contents, the second
the setup closure's own result. -/
def appSetup (r : Except IoErr Child) : Option Child × Except String Unit :=
  match r with
  | Except.ok child => (some child, Except.ok ())
  | Except.error _ => (none, Except.ok ())

/-- A concrete launch environment in which the exe directory and log file
are fine but neither backend filename exists. -/
def noBackendEnv : LaunchEnv :=
  { exeDirOk := true, logCreateOk := true, logCloneOk := true,
    primaryExists := false, sidecarExists := false, spawnOk := true,
    childPid := 7, probeEnv := fun _ => AttemptOutcome.connectRefused }

/-- A concrete launch environment in which the primary backend executable
exists and the spawn succeeds, but the backend never answers the probe. -/
def launchOkEnv : LaunchEnv :=
  { exeDirOk := true, logCreateOk := true, logCloneOk := true,
    primaryExists := true, sidecarExists := false, spawnOk := true,
    childPid := 9, probeEnv := fun _ => AttemptOutcome.connectRefused }

/-- A concrete launch environment in which resolving the exe directory
itself fails. -/
def exeDirFailEnv : LaunchEnv :=
  { exeDirOk := false, logCreateOk := true, logCloneOk := true,
    primaryExists := false, sidecarExists := false, spawnOk := false,
    childPid := 0, probeEnv := fun _ => AttemptOutcome.connectRefused }

/-! ## Helper lemmas -/

/-- The window-close handler's take-and-kill body and the `RunEvent::Exit`
handler's take-and-kill body are the same function on slot states. -/
lemma terminate_bodies_eq : windowCloseTerminate = exitTerminate := by
  funext s
  rcases s with ⟨slot, ks⟩
  cases slot <;> rfl

/-- An empty slot is a fixed point of the take-and-kill body: no kill is
recorded and the slot stays empty. -/
lemma windowCloseTerminate_none (ks : List Nat) :
    windowCloseTerminate { slot := none, kills := ks } =
      { slot := none, kills := ks } := rfl

/-- Iterating the take-and-kill body on an empty slot changes nothing. -/
lemma windowCloseTerminate_iterate_none (M : Nat) (ks : List Nat) :
    windowCloseTerminate^[M] { slot := none, kills := ks } =
      { slot := none, kills := ks } := by
  induction M with
  | zero => rfl
  | succ m ih => rw [Function.iterate_succ_apply, windowCloseTerminate_none, ih]

/-- If every attempt in the window `[idx, idx + rem)` fails, the probe loop
exhausts the window and reports not-ready, having slept once per attempt. -/
lemma probeLoop_all_fail (env : Nat → AttemptOutcome) (d : Nat) :
    ∀ (rem idx : Nat),
      (∀ i, idx ≤ i → i < idx + rem → attemptReady (env i) = false) →
      probeLoop env d idx rem =
        { ready := false, attempts := idx + rem,
          sleptMs := (idx + rem) * d } := by
  intro rem
  induction rem with
  | zero => intro idx _; simp [probeLoop]
  | succ m ih =>
      intro idx h
      have h0 : attemptReady (env idx) = false := h idx le_rfl (by omega)
      have hrec := ih (idx + 1) (fun i h1 h2 => h i (by omega) (by omega))
      have harith : idx + 1 + m = idx + (m + 1) := by omega
      rw [harith] at hrec
      simp [probeLoop, h0, hrec]

/-! ## Claims -/

/-- C1: for every state whose slot holds a live child, iterating the
terminate-if-running operation (the same body in both shutdown handlers)
any `N ≥ 1` times issues exactly one kill (of that child's pid) and leaves
the slot empty; on an empty slot the operation performs no kill and never
refills the slot, no matter how often it is iterated. -/
theorem terminate_once_idempotent (c : Child) (ks : List Nat) (N : Nat)
    (hN : 1 ≤ N) :
    windowCloseTerminate = exitTerminate ∧
    windowCloseTerminate^[N] { slot := some c, kills := ks } =
      { slot := none, kills := ks ++ [c.id] } ∧
    (∀ ks' : List Nat,
      windowCloseTerminate { slot := none, kills := ks' } =
        { slot := none, kills := ks' }) ∧
    (∀ (M : Nat) (ks' : List Nat),
      windowCloseTerminate^[M] { slot := none, kills := ks' } =
        { slot := none, kills := ks' }) := by
  refine ⟨terminate_bodies_eq, ?_, fun ks' => rfl,
    fun M ks' => windowCloseTerminate_iterate_none M ks'⟩
  obtain ⟨m, rfl⟩ : ∃ m, N = m + 1 := ⟨N - 1, by omega⟩
  rw [Function.iterate_succ_apply]
  exact windowCloseTerminate_iterate_none m (ks ++ [c.id])

/-- Witness for C1 at `c.id = 5`, `N = 2`. -/
theorem terminate_once_idempotent_witness :
    windowCloseTerminate^[2] { slot := some { id := 5 }, kills := [] } =
      { slot := none, kills := [5] } :=
  (terminate_once_idempotent { id := 5 } [] 2 (by decide)).2.1

/-- C2 counterexample: in the execution trace of a terminating run (slot
holding a child with pid 42), the mutual-exclusion guard is NOT released
before the kill — the `kill` event precedes the `unlock` event, because the
`MutexGuard` lives until the end of the `if let` block enclosing the call to
`terminate_backend_process`. -/
theorem guard_release_order_counterexample :
    releasedBeforeKill (terminateTrace (some { id := 42 })) = false := by
  decide

/-- C2 amended: in every execution of the terminate-if-running operation
that finds a live handle, the handle is taken out of the guarded slot
(leaving the stored slot empty) before the OS-level kill is performed, but
the mutual-exclusion guard is released only after the kill completes; a
caller that runs after the take finds the empty slot and performs no
further change. -/
theorem take_then_kill_then_release (c : Child) (ks : List Nat) :
    takeLiveIdx (terminateTrace (some c)) <
      killIdx (terminateTrace (some c)) ∧
    killIdx (terminateTrace (some c)) <
      unlockIdx (terminateTrace (some c)) ∧
    (windowCloseTerminate { slot := some c, kills := ks }).slot = none ∧
    (exitTerminate { slot := some c, kills := ks }).slot = none ∧
    windowCloseTerminate
        (windowCloseTerminate { slot := some c, kills := ks }) =
      windowCloseTerminate { slot := some c, kills := ks } := by
  refine ⟨?_, ?_, rfl, rfl, rfl⟩ <;>
    simp [terminateTrace, takeLiveIdx, killIdx, unlockIdx, List.findIdx_cons,
      isTakeLiveEv, isKillEv, isUnlockEv]

/-- C3 counterexample: the application-exit handler does not spawn a worker
thread — it runs the terminate-if-running body inline on the thread
delivering `RunEvent::Exit`. -/
theorem exit_dispatch_counterexample :
    exitDispatch.spawnsWorker = false := rfl

/-- C3 amended: the window-close handler dispatches the terminate-if-running
body on a newly spawned worker thread and does not join it, while the
application-exit handler invokes the same terminate-if-running body
synchronously on the thread delivering the event (no worker spawned). -/
theorem dispatch_modes :
    windowCloseDispatch.spawnsWorker = true ∧
    windowCloseDispatch.joinsWorker = false ∧
    windowCloseDispatch.action = windowCloseTerminate ∧
    exitDispatch.spawnsWorker = false ∧
    exitDispatch.action = exitTerminate ∧
    windowCloseDispatch.action = exitDispatch.action :=
  ⟨rfl, rfl, rfl, rfl, rfl, terminate_bodies_eq⟩

/-- C9: for every pid and every outcome of the external command,
`terminate_backend_process` issues exactly one `taskkill /PID <pid> /T /F`
invocation (force and tree flags) and returns unit; its return value is
independent of the command's outcome. -/
theorem taskkill_tree_force_best_effort (pid : Nat) (o : CmdOutcome) :
    (terminate_backend_process pid o).2 =
      [{ program := "taskkill",
         args := ["/PID", toString pid, "/T", "/F"] }] ∧
    (terminate_backend_process pid o).1 = () ∧
    (∀ o' : CmdOutcome,
      terminate_backend_process pid o = terminate_backend_process pid o') :=
  ⟨rfl, rfl, fun _ => rfl⟩

/-- C4: the backend executable is resolved by first trying the primary
filename (returned when present), then the platform-qualified sidecar
filename (returned when present); when neither file exists, `start_backend`
fails with a NotFound error whose message carries the attempted primary
path, no spawn happens, and the probe never runs. -/
theorem backend_path_fallback (dir : String) (env : LaunchEnv)
    (hd : env.exeDirOk = true) (hc : env.logCreateOk = true)
    (hl : env.logCloneOk = true) :
    (env.primaryExists = true →
      resolveBackendExe dir env.primaryExists env.sidecarExists =
        Except.ok (joinPath dir primaryName)) ∧
    (env.primaryExists = false → env.sidecarExists = true →
      resolveBackendExe dir env.primaryExists env.sidecarExists =
        Except.ok (joinPath dir sidecarName)) ∧
    (env.primaryExists = false → env.sidecarExists = false →
      (start_backend dir env).result =
        Except.error
          { kind := ErrKind.notFound
            msg := "Backend exe not found at " ++
              pathDebug (joinPath dir primaryName) } ∧
      (∀ p : String, Ev.spawn p ∉ (start_backend dir env).events) ∧
      (start_backend dir env).probeReady = none) := by
  refine ⟨?_, ?_, ?_⟩
  · intro hp
    simp [resolveBackendExe, hp]
  · intro hp hs
    simp [resolveBackendExe, hp, hs]
  · intro hp hs
    refine ⟨?_, ?_, ?_⟩ <;>
      simp [start_backend, resolveBackendExe, hd, hc, hl, hp, hs]

/-- Witness for C4: with neither backend filename present, `start_backend`
returns the NotFound error naming the primary path. -/
theorem backend_path_fallback_witness :
    (start_backend "C:/app" noBackendEnv).result =
      Except.error
        { kind := ErrKind.notFound
          msg :=
            "Backend exe not found at \"C:/app/school-management-backend.exe\"" } :=
  ((backend_path_fallback "C:/app" noBackendEnv rfl rfl rfl).2.2 rfl rfl).1

/-- C5: one polling attempt of `wait_for_backend_ready` declares ready iff
more than zero bytes were read and the text contains `"HTTP/1.1 200"` or
`"\"status\""`; a ready attempt returns `true` immediately (short-circuiting
the remaining attempts, with no further sleep), and every other outcome
sleeps the fixed delay and proceeds to the next attempt. -/
theorem probe_attempt_semantics (o : AttemptOutcome)
    (env : Nat → AttemptOutcome) (d i rem : Nat) :
    (attemptReady o = true ↔
      ∃ data, o = AttemptOutcome.readOk data ∧ 0 < data.length ∧
        (strContains data "HTTP/1.1 200" = true ∨
         strContains data "\"status\"" = true)) ∧
    (attemptReady (env i) = true →
      probeLoop env d i (rem + 1) =
        { ready := true, attempts := i + 1, sleptMs := i * d }) ∧
    (attemptReady (env i) = false →
      probeLoop env d i (rem + 1) = probeLoop env d (i + 1) rem) := by
  refine ⟨?_, ?_, ?_⟩
  · cases o <;>
      simp [attemptReady, Bool.and_eq_true, Bool.or_eq_true,
        decide_eq_true_eq]
  · intro h
    simp [probeLoop, h]
  · intro h
    simp [probeLoop, h]

/-- Witness for C5: a refused connection on attempt 0 makes the loop sleep
and move on to attempt 1. -/
theorem probe_attempt_semantics_witness :
    probeLoop (fun _ => AttemptOutcome.connectRefused) 200 0 1 =
      probeLoop (fun _ => AttemptOutcome.connectRefused) 200 1 0 :=
  (probe_attempt_semantics (AttemptOutcome.readOk "HTTP/1.1 200 OK")
    (fun _ => AttemptOutcome.connectRefused) 200 0 0).2.2 (by decide)

/-- C6: when no attempt declares ready, `wait_for_backend_ready` performs
exactly `max_attempts` connection attempts and returns a not-ready boolean
(it is total, never an error); with `max_attempts = 0` it returns `false`
after zero attempts, whatever the environment. -/
theorem probe_exhausts_attempts (env : Nat → AttemptOutcome) (n d : Nat)
    (h : ∀ i, i < n → attemptReady (env i) = false) :
    wait_for_backend_ready env n d =
      { ready := false, attempts := n, sleptMs := n * d } ∧
    (∀ env' : Nat → AttemptOutcome,
      wait_for_backend_ready env' 0 d =
        { ready := false, attempts := 0, sleptMs := 0 }) := by
  constructor
  · have := probeLoop_all_fail env d n 0 (fun i _ h2 => h i (by omega))
    simpa [wait_for_backend_ready] using this
  · intro env'
    simp [wait_for_backend_ready, probeLoop]

/-- Witness for C6: three refused connections yield not-ready after exactly
three attempts and three sleeps. -/
theorem probe_exhausts_attempts_witness :
    wait_for_backend_ready (fun _ => AttemptOutcome.connectRefused) 3 200 =
      { ready := false, attempts := 3, sleptMs := 600 } :=
  (probe_exhausts_attempts (fun _ => AttemptOutcome.connectRefused) 3 200
    (fun _ _ => rfl)).1

/-- C7: whenever the spawn succeeds, `start_backend` returns `Ok` with the
child handle and the probe ran — and the result is `Ok` for every possible
probe behaviour, so a readiness timeout neither kills the child nor rolls
back the launch. -/
theorem launch_ok_despite_probe (dir : String) (env : LaunchEnv)
    (hd : env.exeDirOk = true) (hc : env.logCreateOk = true)
    (hl : env.logCloneOk = true) (hs : env.spawnOk = true)
    (hb : env.primaryExists = true ∨ env.sidecarExists = true) :
    (start_backend dir env).result = Except.ok { id := env.childPid } ∧
    (∃ b : Bool, (start_backend dir env).probeReady = some b) ∧
    (∀ pe : Nat → AttemptOutcome,
      (start_backend dir { env with probeEnv := pe }).result =
        Except.ok { id := env.childPid }) := by
  have key : ∀ env' : LaunchEnv, env'.exeDirOk = true →
      env'.logCreateOk = true → env'.logCloneOk = true →
      env'.spawnOk = true →
      (env'.primaryExists = true ∨ env'.sidecarExists = true) →
      (start_backend dir env').result = Except.ok { id := env'.childPid } ∧
      ∃ b : Bool, (start_backend dir env').probeReady = some b := by
    intro env' h1 h2 h3 h4 h5
    by_cases hp : env'.primaryExists = true
    · constructor <;>
        simp [start_backend, resolveBackendExe, h1, h2, h3, h4, hp]
    · have hp' : env'.primaryExists = false := by
        revert hp
        cases env'.primaryExists <;> simp
      have hsc : env'.sidecarExists = true := by
        rcases h5 with h5 | h5
        · exact absurd h5 hp
        · exact h5
      constructor <;>
        simp [start_backend, resolveBackendExe, h1, h2, h3, h4, hp', hsc]
  refine ⟨(key env hd hc hl hs hb).1, (key env hd hc hl hs hb).2, ?_⟩
  intro pe
  exact (key { env with probeEnv := pe } hd hc hl hs hb).1

/-- Witness for C7: with the primary executable present, a spawn that
succeeds, and a backend that never answers the probe, `start_backend`
still returns `Ok`. -/
theorem launch_ok_despite_probe_witness :
    (start_backend "C:/app" launchOkEnv).result = Except.ok { id := 9 } :=
  (launch_ok_despite_probe "C:/app" launchOkEnv rfl rfl rfl rfl
    (Or.inl rfl)).1

/-- C8: whenever `start_backend` returns an error, the setup closure still
completes with `Ok(())`, manages an empty process slot, and every later
termination trigger is a no-op on that empty slot (no kill recorded). -/
theorem setup_swallows_launch_errors (dir : String) (env : LaunchEnv)
    (e : IoErr) (ks : List Nat)
    (h : (start_backend dir env).result = Except.error e) :
    appSetup (start_backend dir env).result = (none, Except.ok ()) ∧
    windowCloseTerminate
        { slot := (appSetup (start_backend dir env).result).1, kills := ks } =
      { slot := (appSetup (start_backend dir env).result).1, kills := ks } ∧
    exitTerminate
        { slot := (appSetup (start_backend dir env).result).1, kills := ks } =
      { slot := (appSetup (start_backend dir env).result).1, kills := ks } := by
  rw [h]
  exact ⟨rfl, rfl, rfl⟩

/-- Witness for C8: when resolving the exe directory fails, setup manages
an empty slot and reports success. -/
theorem setup_swallows_launch_errors_witness :
    appSetup (start_backend "C:/app" exeDirFailEnv).result =
      (none, Except.ok ()) :=
  (setup_swallows_launch_errors "C:/app" exeDirFailEnv
    { kind := ErrKind.notFound, msg := "Cannot find exe directory" } []
    rfl).1

/-- C10: `backend.log` is created (truncating previous contents) before the
backend executable's existence is checked — in every trace that reaches an
existence check, `createLog` is the first event — so even when neither
backend filename exists and `start_backend` returns the NotFound error, the
log file has already been created and truncated. -/
theorem log_created_before_existence_check (dir : String) (env : LaunchEnv)
    (hd : env.exeDirOk = true) (hc : env.logCreateOk = true)
    (hl : env.logCloneOk = true) (hp : env.primaryExists = false)
    (hs : env.sidecarExists = false) :
    (start_backend dir env).events =
      [Ev.createLog, Ev.checkPrimary, Ev.checkSidecar] ∧
    (start_backend dir env).result =
      Except.error
        { kind := ErrKind.notFound
          msg := "Backend exe not found at " ++
            pathDebug (joinPath dir primaryName) } ∧
    (∀ env' : LaunchEnv,
      Ev.checkPrimary ∈ (start_backend dir env').events →
      (start_backend dir env').events.head? = some Ev.createLog) := by
  refine ⟨?_, ?_, ?_⟩
  · simp [start_backend, resolveBackendExe, hd, hc, hl, hp, hs]
  · simp [start_backend, resolveBackendExe, hd, hc, hl, hp, hs]
  · intro env' hmem
    rcases env' with ⟨ed, lc, ll, pe, se, so, pid, pr⟩
    cases ed <;> cases lc <;> cases ll <;> cases pe <;> cases se <;>
      cases so <;> simp_all [start_backend, resolveBackendExe]

/-- Witness for C10: with neither backend filename present, the failed call
has already created (and truncated) the log before the two existence
checks. -/
theorem log_created_before_existence_check_witness :
    (start_backend "C:/app" noBackendEnv).events =
      [Ev.createLog, Ev.checkPrimary, Ev.checkSidecar] :=
  (log_created_before_existence_check "C:/app" noBackendEnv
    rfl rfl rfl rfl rfl).1

end Educore
